import Mathlib

/-!
Shallow embedding of the lesync/llesync file synchronizer (lesync.py,
llesync.py, lehash.py, llehash.py).  Pure data is modelled directly;
syscall-driven loops (splice pump, transform reads) take the kernel's
responses as oracle functions and a fuel bound; stateful objects (the
File stat cache) are explicit state-passing functions.
-/

namespace Lesync

/-! ## Stat results (os.stat_result, os.fstat) -/

/-- A cached stat snapshot: the ten integer fields of os.stat_result, in
tuple order (mode, ino, dev, nlink, uid, gid, size, atime, mtime, ctime). -/
structure StatResult where
  st_mode : Int
  st_ino : Int
  st_dev : Int
  st_nlink : Int
  st_uid : Int
  st_gid : Int
  st_size : Int
  st_atime : Int
  st_mtime : Int
  st_ctime : Int
deriving DecidableEq, Repr

/-- File.stat0: the sentinel snapshot os.stat_result((-1,) * 10). -/
def stat0 : StatResult :=
  { st_mode := -1, st_ino := -1, st_dev := -1, st_nlink := -1, st_uid := -1,
    st_gid := -1, st_size := -1, st_atime := -1, st_mtime := -1, st_ctime := -1 }

/-- Raw fstat data as the kernel holds it: integer fields plus
nanosecond-precision timestamps (non-negative, after the epoch). -/
structure RawStat where
  st_mode : Int
  st_ino : Int
  st_dev : Int
  st_nlink : Int
  st_uid : Int
  st_gid : Int
  st_size : Int
  st_atime_ns : Nat
  st_mtime_ns : Nat
  st_ctime_ns : Nat
deriving DecidableEq, Repr

def NSEC_PER_SEC : Nat := 1000000000

/-- File.stat population: os.stat_result(int(s) for s in os.fstat(fileno)).
Iterating an os.stat_result yields the ten-element integer tuple whose
timestamp slots are whole seconds (the precise timestamp truncated), and
int(s) keeps every field integral, so the cached snapshot stores
whole-second timestamps. -/
def cacheStat (r : RawStat) : StatResult :=
  { st_mode := r.st_mode, st_ino := r.st_ino, st_dev := r.st_dev,
    st_nlink := r.st_nlink, st_uid := r.st_uid, st_gid := r.st_gid,
    st_size := r.st_size,
    st_atime := Int.ofNat (r.st_atime_ns / NSEC_PER_SEC),
    st_mtime := Int.ofNat (r.st_mtime_ns / NSEC_PER_SEC),
    st_ctime := Int.ofNat (r.st_ctime_ns / NSEC_PER_SEC) }

/-! ## File equality (File.__eq__) -/

/-- The data File.__eq__ consults: the cached stat fields it reads, the
base filename, and the content the digest is computed over.  The digest
itself is passed as a function (the hasher), so the same comparison can
be instantiated with any algorithm. -/
structure FileMeta where
  st_size : Int
  st_mtime : Int
  basename : String
  content : List Nat
deriving DecidableEq, Repr

/-- lesync File.__eq__, instrumented with a digest-invocation counter
(second component): nested ifs over st_size, st_mtime, basename, and only
then self.digest == other.digest (two digest computations, one per side).
Every early exit returns False with zero digest invocations. -/
def fileEqCount (dig : FileMeta → List Nat) (self other : FileMeta) : Bool × Nat :=
  if self.st_size == other.st_size then
    if self.st_mtime == other.st_mtime then
      if self.basename == other.basename then
        (dig self == dig other, 2)
      else (false, 0)
    else (false, 0)
  else (false, 0)

/-- Python-level exception raised by the llesync digest step. -/
inductive PyErr where
  | typeError
deriving DecidableEq, Repr

/-- llesync File.digest: an opened entry reaches desc.digest(self.fileno),
passing one argument to a method declared digest(self, fileno, size) on
every llehash descriptor (HashDescriptor and the dummy descriptor
alike), so the call raises TypeError before any digest is computed; an
unopened entry skips the call and the property yields None. -/
def digestPropLL (opened : Bool) : Except PyErr (Option (List Nat)) :=
  if opened then Except.error PyErr.typeError else Except.ok none

/-- llesync File.__eq__, unrolled, with the digest step's error path: the
first loop returns False on a st_size or st_mtime mismatch, the second
on a basename mismatch; otherwise the digest properties are read (self
first, then other) and their values compared, any raised TypeError
propagating out of the comparison. -/
def fileEqLL (self other : FileMeta) (selfOpened otherOpened : Bool) :
    Except PyErr Bool :=
  if self.st_size != other.st_size then Except.ok false
  else if self.st_mtime != other.st_mtime then Except.ok false
  else if self.basename != other.basename then Except.ok false
  else
    match digestPropLL selfOpened with
    | Except.error e => Except.error e
    | Except.ok d1 =>
      match digestPropLL otherOpened with
      | Except.error e => Except.error e
      | Except.ok d2 => Except.ok (d1 == d2)

/-- The boolean verdict of File.__eq__. -/
def fileEq (dig : FileMeta → List Nat) (self other : FileMeta) : Bool :=
  (fileEqCount dig self other).1

/-! ## The splice pump (HashDescriptor.splice) -/

def SPLICE_F_MOVE : Nat := 1
def SPLICE_F_MORE : Nat := 4

/-- SPLICE_S_MAX: os.sysconf page size times 16 (llehash; lehash hardcodes
the common page size 4096, giving the instance with pageSize = 4096). -/
def SPLICE_S_MAX (pageSize : Nat) : Nat := pageSize * 16

/-- How a splice pump run can fail: the assert nr == nw fired (an
AssertionError aborting the operation), or the fuel bound ran out before
size reached zero (the model of nontermination). -/
inductive SpliceErr where
  | mismatch (nr nw : Nat)
  | noFuel
deriving DecidableEq, Repr

/-- The while loop of HashDescriptor.splice.  sp1 and sp2 give the byte
counts the two splice syscalls report at each iteration (source to pipe,
pipe to transform); both are requested mvlen bytes, where mvlen is size
capped at SPLICE_S_MAX.  Returns the list of (mvlen, flags) requests
issued, the total bytes consumed from the source, and the outcome.  On a
count mismatch the assert aborts the loop at once. -/
def splicePump (sp1 sp2 : Nat → Nat → Nat) (smax : Nat) :
    Nat → Nat → Nat → Nat → List (Nat × Nat) × Nat × Option SpliceErr
  | 0, _, size, consumed =>
      if size = 0 then ([], consumed, none) else ([], consumed, some SpliceErr.noFuel)
  | fuel + 1, k, size, consumed =>
      if size = 0 then ([], consumed, none)
      else
        let mvlen := if size ≤ smax then size else smax
        let flags := if size ≤ smax then SPLICE_F_MOVE else SPLICE_F_MOVE ||| SPLICE_F_MORE
        let nr := sp1 k mvlen
        let nw := sp2 k mvlen
        if nr = nw then
          let rest := splicePump sp1 sp2 smax fuel (k + 1) (size - nr) (consumed + nr)
          ((mvlen, flags) :: rest.1, rest.2)
        else
          ([(mvlen, flags)], consumed + nr, some (SpliceErr.mismatch nr nw))

/-- HashDescriptor.splice as a whole: run the pump over an ephemeral pipe,
then os.lseek(fileno, 0, SEEK_SET).  Takes the source descriptor's offset
before the call and returns (requests, offset after the call, outcome).
The lseek runs only on the success path; if the pump raises, the
exception propagates before the lseek and the offset stays where the
consumed bytes left it. -/
def spliceOp (sp1 sp2 : Nat → Nat → Nat) (smax fuel size : Nat) (off0 : Int) :
    List (Nat × Nat) × Int × Option SpliceErr :=
  let r := splicePump sp1 sp2 smax fuel 0 size 0
  match r.2.2 with
  | none => (r.1, 0, none)
  | some e => (r.1, off0 + (r.2.1 : Int), some e)

/-! ## Digest read-out (HashDescriptor.digest) -/

/-- The read loop of HashDescriptor.digest: while fewer than ds bytes are
collected, os.read the transform descriptor for the missing count and
append whatever partial chunk comes back.  rd gives the bytes the kernel
returns for the k-th read of a given requested length; fuel bounds the
iterations (none models a loop that never completes). -/
def readLoop (rd : Nat → Nat → List Nat) :
    Nat → Nat → Nat → Nat → List Nat → Option (List Nat)
  | 0, _, size, ds, buff => if size < ds then none else some buff
  | fuel + 1, k, size, ds, buff =>
      if size < ds then
        let b := rd k (ds - size)
        readLoop rd fuel (k + 1) (size + b.length) ds (buff ++ b)
      else some buff

/-- HashDescriptor.digest(fileno, size): when size is nonzero, splice the
file into the transform (which rewinds the source on success); when size
is zero, write an empty chunk to the transform instead, leaving the
source descriptor untouched.  Then read the digest back in possibly
partial chunks.  Returns (digest bytes if the call completes, source
descriptor offset after the call). -/
def digestOp (sp1 sp2 : Nat → Nat → Nat) (rd : Nat → Nat → List Nat)
    (smax sfuel rfuel : Nat) (off0 : Int) (size ds : Nat) :
    Option (List Nat) × Int :=
  if size ≠ 0 then
    let r := spliceOp sp1 sp2 smax sfuel size off0
    match r.2.2 with
    | none => (readLoop rd rfuel 0 0 ds [], r.2.1)
    | some _ => (none, r.2.1)
  else
    (readLoop rd rfuel 0 0 ds [], off0)

/-! ## The dummy algorithm and the registry defaults -/

/-- HashDescriptorDummy.digest (and the llehash dummy descriptor): ignores
the descriptor and the size and returns the empty byte string. -/
def dummyDigestBytes (fileno size : Nat) : List Nat := []

/-- File.digest under the dummy hasher: desc.digest(fileno, st_size) with
the dummy descriptor, hence the empty byte string for every entry. -/
def digDummy : FileMeta → List Nat := fun _ => dummyDigestBytes 0 0

/-- lesync main: argparse default for the -D and --digest-algo choice. -/
def defaultDigestAlgo : String := "dummy"

/-- The lehash registry Hash.algorithm(): algorithm name to ALG_BYTE. -/
def hashAlgorithms : List (String × Nat) :=
  [("dummy", 0), ("crc32c", 4), ("md5", 16), ("sha1", 20), ("sha224", 28), ("sha256", 32)]

/-! ## File variants, locking and the open scope (File.open) -/

def LOCK_SH : Nat := 1
def LOCK_EX : Nat := 2
def LOCK_NB : Nat := 4
def ENOENT : Nat := 2
def EWOULDBLOCK : Nat := 11

/-- The three File subclasses: FileRD, FileRDWR, FileStat. -/
inductive Variant where
  | readOnly
  | readWriteCreate
  | statProbe
deriving DecidableEq, Repr

/-- The lockmode property of each variant. -/
def lockmode : Variant → Nat
  | Variant.readOnly => LOCK_SH
  | Variant.readWriteCreate => LOCK_EX
  | Variant.statProbe => LOCK_SH

/-- The errnoignore property: OSError numbers the open scope absorbs. -/
def errnoignore : Variant → List Nat
  | Variant.readOnly => []
  | Variant.readWriteCreate => []
  | Variant.statProbe => [ENOENT]

/-- The second argument of the single fcntl.flock call in File.open:
self.lockmode | fcntl.LOCK_NB. -/
def flockArg (v : Variant) : Nat := lockmode v ||| LOCK_NB

/-- The lock acquisition of File.open: os.open succeeds, then exactly one
flock call with flockArg v is attempted.  An unavailable lock makes flock
raise EWOULDBLOCK; unless that errno is in errnoignore the error
propagates out of the scope (the finally still closes the descriptor) and
the unit of work is abandoned.  Returns the list of flock mode arguments
attempted and the scope outcome. -/
def openScope (v : Variant) (lockAvailable : Bool) : List Nat × Except Nat Unit :=
  if lockAvailable then
    ([flockArg v], Except.ok ())
  else if EWOULDBLOCK ∈ errnoignore v then
    ([flockArg v], Except.ok ())
  else
    ([flockArg v], Except.error EWOULDBLOCK)

/-! ## The stat cache as a state machine (File.open / File.stat) -/

/-- The mutable File fields the stat cache lives in: fileno (sentinel -1
when unopened) and statc (sentinel stat0 until populated). -/
structure FileState where
  fileno : Int
  statc : StatResult
deriving DecidableEq, Repr

/-- File.__init__: fileno = -1, statc = stat0. -/
def initFile : FileState := { fileno := -1, statc := stat0 }

/-- File.opened: fileno >= 0. -/
def FileState.opened (s : FileState) : Bool := s.fileno ≥ 0

/-- Entering File.open when os.open succeeds with descriptor fd. -/
def openEnter (s : FileState) (fd : Nat) : FileState := { s with fileno := (fd : Int) }

/-- The finally block of File.open: if opened, close the descriptor and
set fileno back to -1.  The statc field is not touched. -/
def openExit (s : FileState) : FileState :=
  if s.opened then { s with fileno := -1 } else s

/-- The File.stat property: populate statc from fstat only when the entry
is opened and the cache still holds the sentinel, then return the cached
snapshot.  fstatRes is what os.fstat would report now (already coerced by
cacheStat).  Returns (value returned, state after the access). -/
def FileState.stat (s : FileState) (fstatRes : StatResult) : StatResult × FileState :=
  let s2 := if s.opened && (s.statc == stat0) then { s with statc := fstatRes } else s
  (s2.statc, s2)

/-! ## The copy job (lesync copy / llesync copy) -/

/-- The destination-mutating calls the copy job can issue. -/
inductive CopyAction where
  | seek (off : Nat)
  | truncate (len : Nat)
  | transfer
deriving DecidableEq, Repr

/-- The body of lesync copy(args, src, dst) with both entries open: when
the sync flag is set and src == dst under lesync File.__eq__ (the total
comparison fileEqCount, whose digest call passes both fileno and size),
return before any write; otherwise dst.seek(0), dst.truncate(0), then
the in-kernel transfer dst.copy(src).  Returns the destination actions
in order. -/
def copyJob (sync : Bool) (dig : FileMeta → List Nat) (src dst : FileMeta) :
    List CopyAction :=
  if sync && fileEq dig src dst then []
  else [CopyAction.seek 0, CopyAction.truncate 0, CopyAction.transfer]

/-- The body of llesync copy(args, src, dst) with both entries open: the
guard args.sync and src == dst evaluates llesync File.__eq__ with its
fallible digest step, and a raised TypeError propagates out of the job
before any destination action; with the guard short-circuited (sync off)
or a completed False verdict, dst.seek(0), dst.truncate(0) and
dst.copyfrom(src) run. -/
def copyJobLL (sync : Bool) (src dst : FileMeta) (srcOpened dstOpened : Bool) :
    Except PyErr (List CopyAction) :=
  if sync then
    match fileEqLL src dst srcOpened dstOpened with
    | Except.error e => Except.error e
    | Except.ok true => Except.ok []
    | Except.ok false =>
        Except.ok [CopyAction.seek 0, CopyAction.truncate 0, CopyAction.transfer]
  else
    Except.ok [CopyAction.seek 0, CopyAction.truncate 0, CopyAction.transfer]

/-! ## Job scheduling and the exit status (llesync main) -/

/-- The worker pool: every submitted job runs to its own result; one
job's failure never stops another from being attempted. -/
def runAllJobs (jobs : List (Unit → Except String Unit)) : List (Except String Unit) :=
  jobs.map (fun j => j ())

/-- The drain loop of llesync main: for every completed future, take its
result and log the exception text if it failed; the loop always moves on
to the next future. -/
def drainErrors : List (Except String Unit) → List String
  | [] => []
  | Except.ok _ :: rest => drainErrors rest
  | Except.error e :: rest => e :: drainErrors rest

/-- The process exit status of main: the drain loop swallows every job
failure, main returns None, and the interpreter exits with status 0
(lesync main never inspects its futures at all, with the same status). -/
def mainExitStatus (jobs : List (Unit → Except String Unit)) : Nat :=
  let _ := drainErrors (runAllJobs jobs)
  0

/-! ## Concrete sample values used to instantiate the theorems -/

/-- A kernel oracle whose splice calls always move the full requested
count. -/
def spId : Nat → Nat → Nat := fun _ n => n

/-- A kernel oracle reporting one byte more than requested, so the first
pump iteration sees unequal splice counts. -/
def spPlusOne : Nat → Nat → Nat := fun _ n => n + 1

/-- A read oracle returning the full requested chunk. -/
def rdFull : Nat → Nat → List Nat := fun _ n => List.replicate n 7

def sampleMetaA : FileMeta :=
  { st_size := 3, st_mtime := 10, basename := "a.txt", content := [1] }

def sampleMetaB : FileMeta :=
  { st_size := 4, st_mtime := 10, basename := "a.txt", content := [1, 2] }

/-- Same size, mtime and basename as sampleMetaA but different content. -/
def sampleMetaC : FileMeta :=
  { st_size := 3, st_mtime := 10, basename := "a.txt", content := [2] }

/-- A hasher whose digest separates the sample contents: a stand-in for
any algorithm without collisions on the inputs at hand. -/
def digContent : FileMeta → List Nat := fun f => f.content

def sampleStatA : StatResult :=
  { st_mode := 7, st_ino := 7, st_dev := 7, st_nlink := 7, st_uid := 7,
    st_gid := 7, st_size := 7, st_atime := 7, st_mtime := 7, st_ctime := 7 }

def sampleStatB : StatResult :=
  { st_mode := 9, st_ino := 9, st_dev := 9, st_nlink := 9, st_uid := 9,
    st_gid := 9, st_size := 9, st_atime := 9, st_mtime := 9, st_ctime := 9 }

def sampleRawA : RawStat :=
  { st_mode := 33188, st_ino := 1, st_dev := 1, st_nlink := 1, st_uid := 0,
    st_gid := 0, st_size := 3, st_atime_ns := 5200000000,
    st_mtime_ns := 5200000000, st_ctime_ns := 5200000000 }

def sampleRawB : RawStat :=
  { st_mode := 33188, st_ino := 2, st_dev := 1, st_nlink := 1, st_uid := 0,
    st_gid := 0, st_size := 3, st_atime_ns := 5900000000,
    st_mtime_ns := 5900000000, st_ctime_ns := 5900000000 }

/-- A FileEntry state between scopes of an entry whose cache was already
populated with sampleStatA. -/
def sampleOpenedState : FileState := { fileno := 3, statc := sampleStatA }

/-! ## Helper lemmas -/

/-- The read loop terminates with exactly ds bytes once the buffer keeps
pace with the accumulated count, provided every kernel read returns
between one byte and the requested count. -/
theorem readLoop_length (rd : Nat → Nat → List Nat)
    (hrd : ∀ k n, 0 < n → 1 ≤ (rd k n).length ∧ (rd k n).length ≤ n) :
    ∀ fuel k size ds buff, buff.length = size → size ≤ ds → ds - size ≤ fuel →
      ∃ out, readLoop rd fuel k size ds buff = some out ∧ out.length = ds := by
  intro fuel
  induction fuel with
  | zero =>
    intro k size ds buff hb hle hf
    have hsz : size = ds := by omega
    refine ⟨buff, ?_, by omega⟩
    simp [readLoop, hsz]
  | succ n ih =>
    intro k size ds buff hb hle hf
    by_cases h : size < ds
    · have hlen := hrd k (ds - size) (by omega)
      rw [readLoop]
      simp only [if_pos h]
      exact ih (k + 1) (size + (rd k (ds - size)).length) ds (buff ++ rd k (ds - size))
        (by simp [hb]) (by omega) (by omega)
    · refine ⟨buff, ?_, by omega⟩
      rw [readLoop]
      simp [h]

/-- When the two splice counts always agree and every splice moves at
least one byte (and at most the requested count), the pump drains the
whole size within size iterations. -/
theorem splicePump_success (sp1 sp2 : Nat → Nat → Nat) (smax : Nat)
    (hsp : ∀ k n, sp1 k n = sp2 k n)
    (hprog : ∀ k n, 0 < n → 1 ≤ sp1 k n ∧ sp1 k n ≤ n)
    (hsmax : 0 < smax) :
    ∀ fuel k size consumed, size ≤ fuel →
      (splicePump sp1 sp2 smax fuel k size consumed).2.2 = none := by
  intro fuel
  induction fuel with
  | zero =>
    intro k size consumed h
    have hsz : size = 0 := by omega
    simp [splicePump, hsz]
  | succ n ih =>
    intro k size consumed h
    by_cases h0 : size = 0
    · simp [splicePump, h0]
    · have hmv : 0 < (if size ≤ smax then size else smax) ∧
          (if size ≤ smax then size else smax) ≤ size := by
        by_cases hs : size ≤ smax <;> simp [hs] <;> omega
      have hpr := hprog k (if size ≤ smax then size else smax) hmv.1
      have hnm : sp1 k (if size ≤ smax then size else smax) =
          sp2 k (if size ≤ smax then size else smax) := hsp _ _
      rw [splicePump]
      simp only [if_neg h0, if_pos hnm]
      exact ih (k + 1) (size - sp1 k (if size ≤ smax then size else smax)) _ (by omega)

/-- Every chunk the pump requests is capped at smax. -/
theorem splicePump_chunk_le (sp1 sp2 : Nat → Nat → Nat) (smax : Nat) :
    ∀ fuel k size consumed,
      ∀ c ∈ (splicePump sp1 sp2 smax fuel k size consumed).1, c.1 ≤ smax := by
  intro fuel
  induction fuel with
  | zero =>
    intro k size consumed c hc
    by_cases h0 : size = 0 <;> simp [splicePump, h0] at hc
  | succ n ih =>
    intro k size consumed c hc
    by_cases h0 : size = 0
    · simp [splicePump, h0] at hc
    · rw [splicePump] at hc
      simp only [if_neg h0] at hc
      by_cases hnm : sp1 k (if size ≤ smax then size else smax) =
          sp2 k (if size ≤ smax then size else smax)
      · simp only [if_pos hnm, List.mem_cons] at hc
        rcases hc with hc | hc
        · subst hc
          by_cases hs : size ≤ smax <;> simp [hs]
        · exact ih _ _ _ c hc
      · simp only [if_neg hnm, List.mem_singleton] at hc
        subst hc
        by_cases hs : size ≤ smax <;> simp [hs]

/-- The assert only ever aborts the pump with genuinely unequal counts. -/
theorem splicePump_mismatch_ne (sp1 sp2 : Nat → Nat → Nat) (smax : Nat) :
    ∀ fuel k size consumed nr nw,
      (splicePump sp1 sp2 smax fuel k size consumed).2.2 =
        some (SpliceErr.mismatch nr nw) → nr ≠ nw := by
  intro fuel
  induction fuel with
  | zero =>
    intro k size consumed nr nw hmm
    by_cases h0 : size = 0 <;> simp [splicePump, h0] at hmm
  | succ n ih =>
    intro k size consumed nr nw hmm
    by_cases h0 : size = 0
    · simp [splicePump, h0] at hmm
    · rw [splicePump] at hmm
      simp only [if_neg h0] at hmm
      by_cases hnm : sp1 k (if size ≤ smax then size else smax) =
          sp2 k (if size ≤ smax then size else smax)
      · simp only [if_pos hnm] at hmm
        exact ih _ _ _ _ _ hmm
      · simp only [if_neg hnm] at hmm
        simp only [Option.some.injEq, SpliceErr.mismatch.injEq] at hmm
        rcases hmm with ⟨h1, h2⟩
        subst h1
        subst h2
        exact hnm

/-- With pointwise-equal splice counts the assert never fires. -/
theorem splicePump_no_mismatch (sp1 sp2 : Nat → Nat → Nat) (smax : Nat)
    (hsp : ∀ j n, sp1 j n = sp2 j n) :
    ∀ fuel k size consumed nr nw,
      (splicePump sp1 sp2 smax fuel k size consumed).2.2 ≠
        some (SpliceErr.mismatch nr nw) := by
  intro fuel
  induction fuel with
  | zero =>
    intro k size consumed nr nw hmm
    by_cases h0 : size = 0 <;> simp [splicePump, h0] at hmm
  | succ n ih =>
    intro k size consumed nr nw hmm
    by_cases h0 : size = 0
    · simp [splicePump, h0] at hmm
    · have hnm : sp1 k (if size ≤ smax then size else smax) =
          sp2 k (if size ≤ smax then size else smax) := hsp _ _
      rw [splicePump] at hmm
      simp only [if_neg h0, if_pos hnm] at hmm
      exact ih _ _ _ nr nw hmm

/-- Logged drain output is exactly the error results, in order. -/
theorem drainErrors_eq_filterMap : ∀ rs : List (Except String Unit),
    drainErrors rs = rs.filterMap (fun r => match r with
      | Except.ok _ => none
      | Except.error e => some e)
  | [] => rfl
  | Except.ok _ :: rest => by
      simpa [drainErrors] using drainErrors_eq_filterMap rest
  | Except.error e :: rest => by
      simpa [drainErrors] using drainErrors_eq_filterMap rest

/-! ## Claims -/

/-- C1: both comparisons evaluated at the failing input.  For two opened
entries agreeing on size, mtime and basename, lesync completes the
claimed digest comparison (exactly two digest computations), but llesync
raises TypeError from the digest step — llesync.py calls
desc.digest(self.fileno) without the required size argument — so the
claimed digest comparison never happens there; for entries whose sizes
differ, both return False with no digest access, as claimed. -/
theorem llesync_eq_digest_type_error :
    fileEqLL sampleMetaA sampleMetaA true true = Except.error PyErr.typeError ∧
    fileEqCount digContent sampleMetaA sampleMetaA = (true, 2) ∧
    fileEqLL sampleMetaA sampleMetaB true true = Except.ok false ∧
    fileEqCount digContent sampleMetaA sampleMetaB = (false, 0) :=
  ⟨rfl, rfl, rfl, rfl⟩

/-- C2: digest() returns exactly the declared digest size in bytes for
every byte count, including zero, assembling the output from
possibly-partial reads, given kernel oracles whose reads return between
one byte and the requested count and whose paired splice calls agree and
make progress. -/
theorem digest_length_exact (sp1 sp2 : Nat → Nat → Nat) (rd : Nat → Nat → List Nat)
    (smax sfuel rfuel : Nat) (off0 : Int) (size ds : Nat)
    (hrd : ∀ k n, 0 < n → 1 ≤ (rd k n).length ∧ (rd k n).length ≤ n)
    (hsp : ∀ k n, sp1 k n = sp2 k n)
    (hprog : ∀ k n, 0 < n → 1 ≤ sp1 k n ∧ sp1 k n ≤ n)
    (hsmax : 0 < smax) (hsf : size ≤ sfuel) (hrf : ds ≤ rfuel) :
    ∃ out, (digestOp sp1 sp2 rd smax sfuel rfuel off0 size ds).1 = some out ∧
      out.length = ds := by
  obtain ⟨out, hout, hlen⟩ :=
    readLoop_length rd hrd rfuel 0 0 ds [] rfl (Nat.zero_le _) (by omega)
  by_cases h0 : size = 0
  · subst h0
    refine ⟨out, ?_, hlen⟩
    simp [digestOp, hout]
  · have hps := splicePump_success sp1 sp2 smax hsp hprog hsmax sfuel 0 size 0 hsf
    refine ⟨out, ?_, hlen⟩
    simp [digestOp, spliceOp, hps, h0, hout]

/-- C2 witness: full-chunk oracles, three input bytes, digest size four. -/
theorem digest_length_exact_witness :
    ∃ out, (digestOp spId spId rdFull 65536 3 4 0 3 4).1 = some out ∧ out.length = 4 :=
  digest_length_exact spId spId rdFull 65536 3 4 0 3 4
    (fun _ n hn => ⟨by simpa [rdFull] using hn, by simp [rdFull]⟩)
    (fun _ _ => rfl)
    (fun _ n hn => ⟨hn, Nat.le_refl n⟩)
    (by decide) (by decide) (by decide)

/-- C3: both copy bodies evaluated at the failing input.  sampleMetaA and
sampleMetaC agree on size, mtime and basename but their digests differ,
so under the equality rule they are unequal: lesync's sync job truncates
and transfers as claimed (and skips a genuinely equal pair with no
write), but llesync's job aborts with TypeError from the equality guard
before any branch is taken — neither the no-op skip nor the
truncate-then-transfer ever runs there on metadata-equal pairs. -/
theorem llesync_copy_type_error :
    fileEq digContent sampleMetaA sampleMetaC = false ∧
    copyJob true digContent sampleMetaA sampleMetaC =
      [CopyAction.seek 0, CopyAction.truncate 0, CopyAction.transfer] ∧
    copyJobLL true sampleMetaA sampleMetaC true true = Except.error PyErr.typeError ∧
    copyJob true digContent sampleMetaA sampleMetaA = [] ∧
    copyJobLL true sampleMetaA sampleMetaA true true = Except.error PyErr.typeError :=
  ⟨rfl, rfl, rfl, rfl, rfl⟩

/-- C4: every chunk the pump requests is at most 16 times the page size;
the assert comparing the two per-chunk splice counts only aborts on
genuinely unequal counts, and when the counts agree it never aborts. -/
theorem splice_chunk_cap_and_mismatch_abort (sp1 sp2 : Nat → Nat → Nat)
    (pageSize fuel k size consumed : Nat) :
    (∀ c ∈ (splicePump sp1 sp2 (SPLICE_S_MAX pageSize) fuel k size consumed).1,
      c.1 ≤ 16 * pageSize) ∧
    (∀ nr nw,
      (splicePump sp1 sp2 (SPLICE_S_MAX pageSize) fuel k size consumed).2.2 =
        some (SpliceErr.mismatch nr nw) → nr ≠ nw) ∧
    ((∀ j n, sp1 j n = sp2 j n) →
      ∀ nr nw,
        (splicePump sp1 sp2 (SPLICE_S_MAX pageSize) fuel k size consumed).2.2 ≠
          some (SpliceErr.mismatch nr nw)) := by
  refine ⟨?_, ?_, ?_⟩
  · intro c hc
    have hcap := splicePump_chunk_le sp1 sp2 (SPLICE_S_MAX pageSize) fuel k size consumed c hc
    unfold SPLICE_S_MAX at hcap
    omega
  · exact splicePump_mismatch_ne sp1 sp2 (SPLICE_S_MAX pageSize) fuel k size consumed
  · intro hsp nr nw
    exact splicePump_no_mismatch sp1 sp2 (SPLICE_S_MAX pageSize) hsp fuel k size consumed nr nw

/-- C4 witness: a first-iteration count mismatch aborts the pump, and
agreeing oracles never produce a mismatch abort. -/
theorem splice_chunk_cap_and_mismatch_abort_witness :
    (5 : Nat) ≠ 6 ∧
    (splicePump spId spId (SPLICE_S_MAX 1) 3 0 5 0).2.2 ≠
      some (SpliceErr.mismatch 3 3) :=
  ⟨(splice_chunk_cap_and_mismatch_abort spId spPlusOne 1 3 0 5 0).2.1 5 6 (by decide),
   (splice_chunk_cap_and_mismatch_abort spId spId 1 3 0 5 0).2.2 (fun _ _ => rfl) 3 3⟩

/-- C5 counterexample: digesting a zero byte count from a descriptor
whose offset is 5 leaves the offset at 5, not 0 — the rewind lives
inside splice, which a zero byte count skips. -/
theorem digest_offset_not_rewound_when_empty :
    (digestOp spId spId rdFull 65536 1 1 5 0 0).2 = 5 ∧ ((5 : Int) ≠ 0) :=
  ⟨rfl, by decide⟩

/-- C5 amended: when the byte count is nonzero and the pump completes,
the source descriptor is rewound to offset 0; when the byte count is
zero the pump, and with it the rewind, is skipped and the offset is left
unchanged. -/
theorem digest_offset_amended (sp1 sp2 : Nat → Nat → Nat) (rd : Nat → Nat → List Nat)
    (smax sfuel rfuel : Nat) (off0 : Int) (size ds : Nat) :
    (size = 0 → (digestOp sp1 sp2 rd smax sfuel rfuel off0 size ds).2 = off0) ∧
    (size ≠ 0 → (splicePump sp1 sp2 smax sfuel 0 size 0).2.2 = none →
      (digestOp sp1 sp2 rd smax sfuel rfuel off0 size ds).2 = 0) := by
  constructor
  · intro h0
    simp [digestOp, h0]
  · intro h0 hps
    simp [digestOp, spliceOp, h0, hps]

/-- C5 amended witness: a zero byte count leaves offset 7 in place, and
one byte pumped by full-count oracles rewinds offset 5 to 0. -/
theorem digest_offset_amended_witness :
    (digestOp spId spId rdFull 65536 1 1 7 0 0).2 = 7 ∧
    (digestOp spId spId rdFull 65536 1 1 5 1 0).2 = 0 :=
  ⟨(digest_offset_amended spId spId rdFull 65536 1 1 7 0 0).1 rfl,
   (digest_offset_amended spId spId rdFull 65536 1 1 5 1 0).2 (by decide) (by decide)⟩

/-- C6 counterexample: after an open scope that populated the cache,
scope exit leaves the snapshot in place rather than the sentinel, and a
second open scope of the same entry reads back the first scope's
snapshot even though fstat now reports different data. -/
theorem stat_cache_not_discarded :
    (openExit ((openEnter initFile 3).stat sampleStatA).2).statc ≠ stat0 ∧
    ((openEnter (openExit ((openEnter initFile 3).stat sampleStatA).2) 4).stat
      sampleStatB).1 = sampleStatA ∧
    sampleStatA ≠ sampleStatB := by
  refine ⟨by decide, by decide, by decide⟩

/-- C6 amended: the cached snapshot is populated at most once per
FileEntry lifetime — only while the cache still holds the sentinel — and
closing the descriptor at scope exit resets fileno but retains the
snapshot, so a later open of the same entry observes the previous
scope's snapshot whenever that snapshot differs from the sentinel. -/
theorem stat_cache_retained (s : FileState) (r : StatResult) :
    (openExit s).statc = s.statc ∧
    (s.statc ≠ stat0 → (s.stat r).1 = s.statc ∧ (s.stat r).2 = s) ∧
    (s.opened = true → s.statc = stat0 →
      (s.stat r).1 = r ∧ (s.stat r).2.statc = r) := by
  refine ⟨?_, ?_, ?_⟩
  · unfold openExit
    split <;> rfl
  · intro hne
    have hbeq : (s.statc == stat0) = false := by simp [hne]
    simp [FileState.stat, hbeq]
  · intro hop heq
    simp [FileState.stat, hop, heq]

/-- C6 amended witness: a populated cache survives scope exit and is
served again instead of fresh fstat data. -/
theorem stat_cache_retained_witness :
    sampleOpenedState.statc ≠ stat0 ∧
    (sampleOpenedState.stat sampleStatB).1 = sampleOpenedState.statc ∧
    (openExit sampleOpenedState).statc = sampleOpenedState.statc :=
  ⟨by decide,
   ((stat_cache_retained sampleOpenedState sampleStatB).2.1 (by decide)).1,
   (stat_cache_retained sampleOpenedState sampleStatB).1⟩

/-- C7 counterexample: a run whose only job fails still exits with
status 0 — the failure is logged and swallowed, and no aggregate
non-zero exit status is produced. -/
theorem exit_status_zero_after_failure :
    mainExitStatus [fun _ => Except.error "boom"] = 0 ∧
    drainErrors (runAllJobs [fun _ => Except.error "boom"]) = ["boom"] :=
  ⟨rfl, rfl⟩

/-- C7 amended: every scheduled job is attempted and each failure is
caught and logged at the job boundary without stopping the others, but
the run always exits with status 0, even when jobs failed. -/
theorem jobs_all_attempted_exit_zero (jobs : List (Unit → Except String Unit)) :
    (runAllJobs jobs).length = jobs.length ∧
    drainErrors (runAllJobs jobs) =
      (runAllJobs jobs).filterMap (fun r => match r with
        | Except.ok _ => none
        | Except.error e => some e) ∧
    mainExitStatus jobs = 0 :=
  ⟨by simp [runAllJobs], drainErrors_eq_filterMap _, rfl⟩

/-- C8: every lock acquisition in File.open passes LOCK_NB, exactly one
flock call is made per scope (never retried), and an unavailable lock
makes the scope fail with EWOULDBLOCK, abandoning the unit of work. -/
theorem openScope_nonblocking (v : Variant) (lockAvailable : Bool) :
    (openScope v lockAvailable).1 = [flockArg v] ∧
    flockArg v &&& LOCK_NB = LOCK_NB ∧
    (lockAvailable = false →
      (openScope v lockAvailable).2 = Except.error EWOULDBLOCK) := by
  refine ⟨?_, ?_, ?_⟩
  · cases lockAvailable <;> cases v <;> rfl
  · cases v <;> decide
  · intro h
    subst h
    cases v <;> rfl

/-- C8 witness: an exclusive writer scope with the lock unavailable is
abandoned after its single non-blocking attempt. -/
theorem openScope_nonblocking_witness :
    (openScope Variant.readWriteCreate false).2 = Except.error EWOULDBLOCK ∧
    (openScope Variant.readWriteCreate false).1 = [flockArg Variant.readWriteCreate] :=
  ⟨(openScope_nonblocking Variant.readWriteCreate false).2.2 rfl,
   (openScope_nonblocking Variant.readWriteCreate false).1⟩

/-- C9: the dummy digest descriptor returns the empty byte string for
every descriptor and size, the argparse default algorithm is dummy, and
under the dummy hasher the equality verdict is a function of metadata
alone — changing either file's content never changes it. -/
theorem dummy_digest_content_independent (fd sz : Nat) (a b : FileMeta)
    (c1 c2 : List Nat) :
    dummyDigestBytes fd sz = [] ∧
    defaultDigestAlgo = "dummy" ∧
    fileEq digDummy { a with content := c1 } { b with content := c2 } =
      fileEq digDummy a b ∧
    (fileEq digDummy a b = true ↔
      a.st_size = b.st_size ∧ a.st_mtime = b.st_mtime ∧ a.basename = b.basename) := by
  refine ⟨rfl, rfl, ?_, ?_⟩
  · simp [fileEq, fileEqCount, digDummy]
  · by_cases h1 : a.st_size = b.st_size <;>
      by_cases h2 : a.st_mtime = b.st_mtime <;>
        by_cases h3 : a.basename = b.basename <;>
          simp [fileEq, fileEqCount, digDummy, h1, h2, h3]

/-- C9 witness: rewriting both contents leaves a concrete verdict
untouched. -/
theorem dummy_digest_content_independent_witness :
    dummyDigestBytes 3 100 = [] ∧
    fileEq digDummy { sampleMetaA with content := [9, 9] }
      { sampleMetaB with content := [] } = fileEq digDummy sampleMetaA sampleMetaB :=
  ⟨(dummy_digest_content_independent 3 100 sampleMetaA sampleMetaB [9, 9] []).1,
   (dummy_digest_content_independent 3 100 sampleMetaA sampleMetaB [9, 9] []).2.2.1⟩

/-- C10: the cached snapshot stores whole-second timestamps, so two raw
stats whose modification times fall in the same whole second cache equal
st_mtime values even when their nanosecond parts differ, and with equal
sizes and names the comparison then proceeds past the mtime check to the
digest. -/
theorem mtime_whole_second (r1 r2 : RawStat) (dig : FileMeta → List Nat)
    (name : String) (c1 c2 : List Nat)
    (h : r1.st_mtime_ns / NSEC_PER_SEC = r2.st_mtime_ns / NSEC_PER_SEC) :
    (cacheStat r1).st_mtime = (cacheStat r2).st_mtime ∧
    (r1.st_size = r2.st_size →
      (fileEqCount dig
        { st_size := (cacheStat r1).st_size, st_mtime := (cacheStat r1).st_mtime,
          basename := name, content := c1 }
        { st_size := (cacheStat r2).st_size, st_mtime := (cacheStat r2).st_mtime,
          basename := name, content := c2 }).2 = 2) := by
  have hm : (cacheStat r1).st_mtime = (cacheStat r2).st_mtime := by
    simp [cacheStat, h]
  refine ⟨hm, ?_⟩
  intro hsz
  simp [fileEqCount, cacheStat, hsz, h]

/-- C10 witness: mtimes 5.2s and 5.9s differ in nanoseconds but cache the
same whole second. -/
theorem mtime_whole_second_witness :
    sampleRawA.st_mtime_ns ≠ sampleRawB.st_mtime_ns ∧
    (cacheStat sampleRawA).st_mtime = (cacheStat sampleRawB).st_mtime :=
  ⟨by decide,
   (mtime_whole_second sampleRawA sampleRawB digDummy "a" [] [] (by decide)).1⟩

end Lesync
